import Mathlib

/-!
Shallow embedding of the error-transport foundation library:
the error taxonomy (src/errors), the policy resolver
(src/errors/processing/error-policy.ts), the transport mapper
(src/errors/processing/http-mapper.ts), the classifier
(src/errors/processing/classify-error.ts), and the resilience wrappers
(src/http/resilience/retry.ts, circuit-breaker.ts, timeout).

Machine integers are modelled as Nat (statuses, timestamps, durations are
non-negative in the source); asynchronous effects are modelled by explicit
state passing (circuit storage contents in/out), by outcome values
(resolved/rejected promises become Except), and by oracles for the sources
of nondeterminism (Math.random jitter draws, wall-clock readings).
-/

/-- Architectural layer of an error (`ErrorLayer` in base-error.ts). -/
inductive ErrorLayer
  | domain
  | infrastructure
  | application
deriving DecidableEq, Repr

/-- The codes of the six concrete DomainError subclasses (domain-errors.ts
and validation-error.ts declare classes with these fixed codes). -/
inductive DomainCode
  | notFound
  | conflict
  | forbidden
  | unauthorized
  | methodNotAllowed
  | invalidParam
deriving DecidableEq, Repr

/-- Mode of an upstream ApiResponseError (api-response-error.ts). -/
inductive ApiMode
  | proxy
  | integration
deriving DecidableEq, Repr

/-- The closed taxonomy of BaseError subclasses that exist in the source.
Each constructor carries the per-instance data its TS class stores; the
`message` argument is the string the class passed to `super(message)`.
`apiResponseError`'s `retryableHint` is `remoteError.retryable === true`. -/
inductive BaseError
  | validationError (fields : List (String × String)) (message : String)
  | domainError (code : DomainCode) (message : String)
  | apiResponseError (status : Nat) (mode : ApiMode) (retryableHint : Bool) (message : String)
  | fetchError (status : Nat) (message : String)
  | networkError (message : String)
  | circuitOpenError (circuitName : String) (resetAt : Nat) (message : String)
  | timeoutError (timeoutMs : Nat) (message : String)
  | graphQLUpstreamError (message : String)
  | unexpectedError (message : String)
deriving DecidableEq, Repr

namespace BaseError

/-- Layer, as fixed by the abstract class each concrete class extends
(DomainError / InfrastructureError / ApplicationError in base-error.ts). -/
def layer : BaseError → ErrorLayer
  | .validationError _ _ => .domain
  | .domainError _ _ => .domain
  | .apiResponseError _ _ _ _ => .infrastructure
  | .fetchError _ _ => .infrastructure
  | .networkError _ => .infrastructure
  | .circuitOpenError _ _ _ => .infrastructure
  | .timeoutError _ _ => .infrastructure
  | .graphQLUpstreamError _ => .infrastructure
  | .unexpectedError _ => .application

/-- The `retryable` readonly field of each class. DomainError subclasses fix
it to false, ApplicationError to false; FetchError computes
`status >= 500 || status === 429`; ApiResponseError computes
`remoteError.retryable === true || status >= 500 || status === 429`;
NetworkError, CircuitOpenError, TimeoutError and GraphQLUpstreamError fix
it to true. -/
def retryable : BaseError → Bool
  | .validationError _ _ => false
  | .domainError _ _ => false
  | .apiResponseError status _ hint _ => hint || decide (500 ≤ status) || decide (status = 429)
  | .fetchError status _ => decide (500 ≤ status) || decide (status = 429)
  | .networkError _ => true
  | .circuitOpenError _ _ _ => true
  | .timeoutError _ _ => true
  | .graphQLUpstreamError _ => true
  | .unexpectedError _ => false

/-- The `operational` readonly field of the three abstract layers. -/
def operational : BaseError → Bool
  | .validationError _ _ => true
  | .domainError _ _ => true
  | .apiResponseError _ _ _ _ => true
  | .fetchError _ _ => true
  | .networkError _ => true
  | .circuitOpenError _ _ _ => true
  | .timeoutError _ _ => true
  | .graphQLUpstreamError _ => true
  | .unexpectedError _ => false

/-- The `code` readonly field (values from ErrorCodes in error-codes.ts). -/
def code : BaseError → String
  | .validationError _ _ => "VALIDATION_ERROR"
  | .domainError c _ =>
      match c with
      | .notFound => "NOT_FOUND"
      | .conflict => "CONFLICT"
      | .forbidden => "FORBIDDEN"
      | .unauthorized => "UNAUTHORIZED"
      | .methodNotAllowed => "METHOD_NOT_ALLOWED"
      | .invalidParam => "INVALID_PARAM"
  | .apiResponseError _ _ _ _ => "API_RESPONSE_ERROR"
  | .fetchError _ _ => "FETCH_ERROR"
  | .networkError _ => "NETWORK_ERROR"
  | .circuitOpenError _ _ _ => "CIRCUIT_OPEN_ERROR"
  | .timeoutError _ _ => "TIMEOUT_ERROR"
  | .graphQLUpstreamError _ => "GRAPHQL_ERROR"
  | .unexpectedError _ => "UNEXPECTED_ERROR"

/-- Stored message (the string passed to `super(message)`). -/
def message : BaseError → String
  | .validationError _ m => m
  | .domainError _ m => m
  | .apiResponseError _ _ _ m => m
  | .fetchError _ m => m
  | .networkError m => m
  | .circuitOpenError _ _ m => m
  | .timeoutError _ m => m
  | .graphQLUpstreamError m => m
  | .unexpectedError m => m

/-- The JS `name` property: BaseError's constructor sets
`this.name = this.constructor.name`, the class name. -/
def className : BaseError → String
  | .validationError _ _ => "ValidationError"
  | .domainError c _ =>
      match c with
      | .notFound => "NotFoundError"
      | .conflict => "ConflictError"
      | .forbidden => "ForbiddenError"
      | .unauthorized => "UnauthorizedError"
      | .methodNotAllowed => "MethodNotAllowedError"
      | .invalidParam => "InvalidParamError"
  | .apiResponseError _ _ _ _ => "ApiResponseError"
  | .fetchError _ _ => "FetchError"
  | .networkError _ => "NetworkError"
  | .circuitOpenError _ _ _ => "CircuitOpenError"
  | .timeoutError _ _ => "TimeoutError"
  | .graphQLUpstreamError _ => "GraphQLUpstreamError"
  | .unexpectedError _ => "UnexpectedError"

end BaseError

/-- TimeoutError's constructor: `super(\x7bRequest timed out after ...ms\x7d)`
with `timeoutMs` stored. -/
def mkTimeoutError (timeoutMs : Nat) : BaseError :=
  .timeoutError timeoutMs ("Request timed out after " ++ toString timeoutMs ++ "ms")

/-- Log levels used by ErrorPolicy (error-policy.ts). -/
inductive LogLevel
  | error
  | warn
  | info
deriving DecidableEq, Repr

/-- The ErrorPolicy record of error-policy.ts. -/
structure ErrorPolicy where
  shouldReport : Bool
  shouldAlert : Bool
  shouldExpose : Bool
  logLevel : LogLevel
deriving DecidableEq, Repr

/-- getErrorPolicy of error-policy.ts: a total pure function. The source
checks, in order: instanceof ValidationError, instanceof ApiResponseError
(then branching on mode), `layer === "domain"`, `layer === "infrastructure"`,
and finally the application/unknown default. First match wins. -/
def getErrorPolicy (error : BaseError) : ErrorPolicy :=
  match error with
  | .validationError _ _ =>
      { shouldReport := false, shouldAlert := false, shouldExpose := true
        logLevel := .info }
  | .apiResponseError status mode _ _ =>
      if mode = ApiMode.proxy then
        { shouldReport := false, shouldAlert := false, shouldExpose := true
          logLevel := if 500 ≤ status then .warn else .info }
      else
        { shouldReport := true, shouldAlert := decide (500 ≤ status), shouldExpose := false
          logLevel := .error }
  | e =>
      if e.layer = ErrorLayer.domain then
        { shouldReport := false, shouldAlert := false, shouldExpose := true
          logLevel := .warn }
      else if e.layer = ErrorLayer.infrastructure then
        { shouldReport := true, shouldAlert := !e.retryable, shouldExpose := false
          logLevel := .error }
      else
        { shouldReport := true, shouldAlert := true, shouldExpose := false
          logLevel := .error }

namespace HttpStatus

def BAD_REQUEST : Nat := 400
def UNAUTHORIZED : Nat := 401
def FORBIDDEN : Nat := 403
def NOT_FOUND : Nat := 404
def METHOD_NOT_ALLOWED : Nat := 405
def CONFLICT : Nat := 409
def UNPROCESSABLE_CONTENT : Nat := 422
def TOO_MANY_REQUESTS : Nat := 429
def INTERNAL_SERVER_ERROR : Nat := 500
def BAD_GATEWAY : Nat := 502
def SERVICE_UNAVAILABLE : Nat := 503
def GATEWAY_TIMEOUT : Nat := 504

end HttpStatus

/-- DOMAIN_STATUS_MAP of domain-status-map.ts: the partial record of
ErrorCode to HttpStatusCode whose domain is exactly the six domain codes. -/
def DOMAIN_STATUS_MAP : DomainCode → Option Nat
  | .notFound => some HttpStatus.NOT_FOUND
  | .conflict => some HttpStatus.CONFLICT
  | .forbidden => some HttpStatus.FORBIDDEN
  | .unauthorized => some HttpStatus.UNAUTHORIZED
  | .methodNotAllowed => some HttpStatus.METHOD_NOT_ALLOWED
  | .invalidParam => some HttpStatus.UNPROCESSABLE_CONTENT

/-- determineStatus of http-mapper.ts. The source's sequence of disjoint
instanceof / layer tests becomes a match on the disjoint constructors, in
the source's order: ValidationError, then `layer === "domain"` (which, with
ValidationError already handled, is exactly `domainError`), then
ApiResponseError with its mode branch, then NetworkError, CircuitOpenError,
TimeoutError (branching on its `retryable` field), FetchError (with the
429 carve-out), and the 500 fallback for everything else. -/
def determineStatus : BaseError → Nat
  | .validationError _ _ => HttpStatus.UNPROCESSABLE_CONTENT
  | .domainError c _ => (DOMAIN_STATUS_MAP c).getD HttpStatus.BAD_REQUEST
  | .apiResponseError status mode _ _ =>
      if mode = ApiMode.proxy then status
      else if 500 ≤ status then HttpStatus.SERVICE_UNAVAILABLE
      else HttpStatus.BAD_GATEWAY
  | .networkError _ => HttpStatus.BAD_GATEWAY
  | .circuitOpenError _ _ _ => HttpStatus.SERVICE_UNAVAILABLE
  | .timeoutError t m =>
      if (BaseError.timeoutError t m).retryable then HttpStatus.SERVICE_UNAVAILABLE
      else HttpStatus.GATEWAY_TIMEOUT
  | .fetchError status _ =>
      if status = HttpStatus.TOO_MANY_REQUESTS then HttpStatus.TOO_MANY_REQUESTS
      else HttpStatus.BAD_GATEWAY
  | .graphQLUpstreamError _ => HttpStatus.INTERNAL_SERVER_ERROR
  | .unexpectedError _ => HttpStatus.INTERNAL_SERVER_ERROR

/-- The shape of the structured `meta` the transport mapper can attach
(the VALIDATION variant of ApiErrorMeta in api-error.types.ts; the
RATE_LIMIT variant is never produced by mapToHttpError). -/
inductive ApiErrorMeta
  | validation (fields : List (String × String))
deriving DecidableEq, Repr

/-- The HttpError DTO of http-error.ts (the fields its constructor stores). -/
structure HttpError where
  code : String
  status : Nat
  message : String
  expose : Bool
  layer : ErrorLayer
  retryable : Bool
  meta : Option ApiErrorMeta
deriving DecidableEq, Repr

/-- JS `code.toUpperCase().replace(/[^A-Z0-9_]/g, "_")` on the ASCII codes
the taxonomy uses: uppercase each character, then replace every character
outside A-Z, 0-9, underscore by an underscore. -/
def jsUpperReplace (s : String) : String :=
  String.mk (s.data.map (fun c =>
    let u := c.toUpper
    if ('A' ≤ u ∧ u ≤ 'Z') ∨ ('0' ≤ u ∧ u ≤ '9') ∨ u = '_' then u else '_'))

/-- mapToHttpError of http-mapper.ts. -/
def mapToHttpError (error : BaseError) (policy : ErrorPolicy) : HttpError :=
  let status := determineStatus error
  let safeMessage := if policy.shouldExpose then error.message else "Internal server error"
  { code := jsUpperReplace error.code
    status := status
    message := safeMessage
    expose := policy.shouldExpose
    layer := error.layer
    retryable := error.retryable
    meta :=
      if policy.shouldExpose then
        match error with
        | .validationError fields _ => some (ApiErrorMeta.validation fields)
        | _ => none
      else none }

/-- Checks whether `pat` occurs as a contiguous run inside `l`
(the JS `String.prototype.includes`). -/
def includesAux (pat : List Char) : List Char → Bool
  | [] => pat.isEmpty
  | c :: rest => pat.isPrefixOf (c :: rest) || includesAux pat rest

/-- JS `s.includes(pat)`. -/
def strIncludes (s pat : String) : Bool :=
  includesAux pat.data s.data

/-- JS `s.toLowerCase()` on the ASCII messages involved. -/
def jsToLower (s : String) : String :=
  s.map Char.toLower

/-- An arbitrary failure value, as classify-error.ts sees it: an
already-typed BaseError, a plain JS Error (with its `name`, `message` and
optional string `code` property), or any non-Error value. -/
inductive ErrValue
  | typed (e : BaseError)
  | jsError (name : String) (message : String) (sysCode : Option String)
  | nonError
deriving DecidableEq, Repr

/-- UnexpectedError's constructor (unexpected-error.ts): when the cause is
an Error the display message is `Unexpected: ` plus the cause's message,
otherwise the fixed string. -/
def mkUnexpectedErrorFromJs (causeMessage : String) : BaseError :=
  .unexpectedError ("Unexpected: " ++ causeMessage)

/-- classifyError of classify-error.ts: identity on BaseError; a JS Error
whose signature indicates connectivity failure becomes a NetworkError
(retaining the message, falling back to a fixed string when the message is
empty, since `error.message || "..."` treats "" as falsy); everything else
becomes an UnexpectedError. -/
def classifyError : ErrValue → BaseError
  | .typed e => e
  | .jsError name message sysCode =>
      let m := jsToLower message
      let isNetworkError :=
        name == "TypeError" &&
          (strIncludes m "fetch" || strIncludes m "network" ||
            strIncludes m "failed to fetch")
      let isSystemError :=
        name == "AbortError" ||
          (match sysCode with
           | some c => ["ENOTFOUND", "ECONNREFUSED", "ETIMEDOUT", "ECONNRESET"].contains c
           | none => false)
      if isNetworkError || isSystemError then
        .networkError (if message = "" then "Network failure or timeout" else message)
      else
        mkUnexpectedErrorFromJs message
  | .nonError => .unexpectedError "An unexpected error occurred"

/-- The reason a wrapped promise rejected with, as the timeout wrapper's
catch handler sees it: a plain JS Error (carrying its `name`), one of the
library's typed errors (whose `name` is the class name), or a non-Error
value (which fails the `instanceof Error` test). -/
inductive JsReason
  | errorObj (name : String) (message : String)
  | baseErr (e : BaseError)
  | nonErrorValue
deriving DecidableEq, Repr

/-- The `name` of a rejection reason when it is an Error instance. -/
def reasonName : JsReason → Option String
  | .errorObj n _ => some n
  | .baseErr e => some e.className
  | .nonErrorValue => none

/-- The catch clause of withTimeout (timeout wrapper): a settled outcome of
the wrapped call is mapped so that a rejection that is an Error named
"AbortError" becomes a TimeoutError carrying the configured duration, and
every other outcome passes through unchanged. (The surrounding code builds
the merged AbortSignal and clears the deadline timer; the observable
translation of the settled outcome is this function.) -/
def withTimeoutResult {α : Type} (timeoutMs : Nat) :
    Except JsReason α → Except JsReason α
  | .error r =>
      if reasonName r = some "AbortError" then
        .error (.baseErr (mkTimeoutError timeoutMs))
      else .error r
  | .ok v => .ok v

/-- Backoff strategies of retry.ts. -/
inductive Backoff
  | fixed
  | exponential
  | linear
deriving DecidableEq, Repr

/-- RetryOptions of retry.ts, with the source's defaults. The shouldRetry
predicate is passed separately (its default is defaultShouldRetry). -/
structure RetryOptions where
  maxAttempts : Nat := 3
  delayMs : Nat := 1000
  backoff : Backoff := .exponential
  maxJitterMs : Nat := 100
  maxDelayMs : Nat := 30000
deriving DecidableEq, Repr

/-- calculateDelay of retry.ts. `jitterDraw` stands for the sampled
`Math.floor(Math.random() * maxJitter)`, a value in [0, maxJitter). -/
def calculateDelay (attempt baseDelay : Nat) (strategy : Backoff)
    (maxJitter maxDelay jitterDraw : Nat) : Nat :=
  let delay :=
    match strategy with
    | .exponential => baseDelay * 2 ^ (attempt - 1)
    | .linear => baseDelay * attempt
    | .fixed => baseDelay
  let delay := if 0 < maxJitter then delay + jitterDraw else delay
  min delay maxDelay

/-- defaultShouldRetry of retry.ts: retry on TimeoutError, on FetchError
with status ≥ 500, and on nothing else. -/
def defaultShouldRetry : BaseError → Bool
  | .timeoutError _ _ => true
  | .fetchError status _ => decide (500 ≤ status)
  | _ => false

/-- Observable outcome of one run through withRetry: the settled result,
the number of invocations of the wrapped function, and the list of delays
slept between attempts (in order). -/
structure RetryOutcome (ε α : Type) where
  result : Except ε α
  invocations : Nat
  delays : List Nat

/-- One pass of withRetry's for-loop starting at `attempt` with `rem`
attempts still allowed. Mirrors retry.ts: invoke; on success return; on
failure rethrow when this was the last allowed attempt, otherwise consult
the predicate, rethrow when not retryable, otherwise compute the delay
(with this attempt's jitter draw), sleep it, and continue. `none` is the
fall-through `throw lastError` after a loop that never ran (only possible
when maxAttempts = 0, where the source throws undefined). -/
def retryAux {ε α : Type} (opts : RetryOptions) (shouldRetry : ε → Nat → Bool)
    (fn : Nat → Except ε α) (jitter : Nat → Nat) :
    Nat → Nat → Option (RetryOutcome ε α)
  | _, 0 => none
  | attempt, rem + 1 =>
      match fn attempt with
      | .ok v => some ⟨.ok v, 1, []⟩
      | .error e =>
          if rem = 0 then some ⟨.error e, 1, []⟩
          else if !shouldRetry e attempt then some ⟨.error e, 1, []⟩
          else
            let d := calculateDelay attempt opts.delayMs opts.backoff
              opts.maxJitterMs opts.maxDelayMs (jitter attempt)
            match retryAux opts shouldRetry fn jitter (attempt + 1) rem with
            | none => none
            | some rest => some ⟨rest.result, rest.invocations + 1, d :: rest.delays⟩

/-- withRetry of retry.ts applied to one call: attempts start at 1 and at
most `maxAttempts` are made. -/
def withRetryRun {ε α : Type} (opts : RetryOptions) (shouldRetry : ε → Nat → Bool)
    (fn : Nat → Except ε α) (jitter : Nat → Nat) : Option (RetryOutcome ε α) :=
  retryAux opts shouldRetry fn jitter 1 opts.maxAttempts

/-- CircuitState of storage.ts: "closed" | "open" | "half-open". -/
inductive CircuitState
  | closed
  | «open»
  | halfOpen
deriving DecidableEq, Repr

/-- CircuitData of storage.ts. -/
structure CircuitData where
  state : CircuitState
  failures : Nat
  successes : Nat
  lastFailure : Nat
deriving DecidableEq, Repr

/-- DEFAULT_CIRCUIT of storage.ts. -/
def DEFAULT_CIRCUIT : CircuitData :=
  { state := .closed, failures := 0, successes := 0, lastFailure := 0 }

/-- The numeric options of withCircuitBreaker, with the source defaults. -/
structure CBConfig where
  failureThreshold : Nat := 5
  resetTimeout : Nat := 30000
  successThreshold : Nat := 2
deriving DecidableEq, Repr

/-- What one call through withCircuitBreaker settles with: the wrapped
function's success, the wrapped function's failure rethrown, or the
fast-fail CircuitOpenError (which the source constructs as
`new CircuitOpenError(name, resetAt)`, carrying the circuit name and the
scheduled reset time). -/
inductive CBOutcome
  | ok
  | failed
  | rejectedOpen (circuitName : String) (resetAt : Nat)
deriving DecidableEq, Repr

/-- Observable effect of one call through withCircuitBreaker: the storage
content after the call, the outcome, whether the wrapped function was
invoked, and the intermediate open-to-half-open write when it happened. -/
structure CBResult where
  stored : Option CircuitData
  outcome : CBOutcome
  invoked : Bool
  halfOpenWrite : Option CircuitData
deriving DecidableEq, Repr

/-- The try/catch tail of withCircuitBreaker, after the wrapped function
was invoked on circuit snapshot `c1` (`mid` records the open-to-half-open
write when the call went through a lazy transition). On success in
half-open the success counter is incremented and, at successThreshold, the
state closes and the failure counter resets; on success in closed the
failure counter resets. On failure the failure counter is incremented, the
failure time recorded, and the state opens when the counter reaches
failureThreshold. -/
def cbSettle (cfg : CBConfig) (now : Nat) (succeeds : Bool)
    (c1 : CircuitData) (mid : Option CircuitData) : CBResult :=
  if succeeds then
    if c1.state = CircuitState.halfOpen then
      if cfg.successThreshold ≤ c1.successes + 1 then
        ⟨some { c1 with state := .closed, successes := c1.successes + 1, failures := 0 },
          .ok, true, mid⟩
      else
        ⟨some { c1 with successes := c1.successes + 1 }, .ok, true, mid⟩
    else
      ⟨some { c1 with failures := 0 }, .ok, true, mid⟩
  else
    if cfg.failureThreshold ≤ c1.failures + 1 then
      ⟨some { c1 with state := .«open», failures := c1.failures + 1, lastFailure := now },
        .failed, true, mid⟩
    else
      ⟨some { c1 with failures := c1.failures + 1, lastFailure := now }, .failed, true, mid⟩

/-- One call through withCircuitBreaker (circuit-breaker.ts): read the
stored circuit (defaulting to a fresh DEFAULT_CIRCUIT copy), take `now`;
when the circuit is open either fail fast with CircuitOpenError while
`now < lastFailure + resetTimeout`, or — at or after that deadline — write
the half-open transition (success counter reset to 0) and proceed; then
invoke the wrapped function (`succeeds` says how it settles) and write the
updated circuit back. -/
def cbStep (name : String) (cfg : CBConfig) (stored : Option CircuitData)
    (now : Nat) (succeeds : Bool) : CBResult :=
  let circuit := stored.getD DEFAULT_CIRCUIT
  if circuit.state = CircuitState.«open» then
    if circuit.lastFailure + cfg.resetTimeout ≤ now then
      let c1 := { circuit with state := CircuitState.halfOpen, successes := 0 }
      cbSettle cfg now succeeds c1 (some c1)
    else
      ⟨stored, .rejectedOpen name (circuit.lastFailure + cfg.resetTimeout), false, none⟩
  else
    cbSettle cfg now succeeds circuit none

/-- The storage content after a sequence of calls through the breaker,
starting from empty storage. The head of the list is the most recent call;
each entry gives that call's clock reading and whether the wrapped
function would succeed. -/
def cbRun (name : String) (cfg : CBConfig) : List (Nat × Bool) → Option CircuitData
  | [] => none
  | step :: rest => (cbStep name cfg (cbRun name cfg rest) step.1 step.2).stored

/-- Helper: no class in the taxonomy is named "AbortError", so a typed
BaseError rejection never triggers the timeout translation. -/
theorem BaseError.className_ne_abortError (e : BaseError) :
    e.className ≠ "AbortError" := by
  cases e <;> first
    | (simp only [BaseError.className]; decide)
    | (rename_i c m; cases c <;> (simp only [BaseError.className]; decide))

/-- C1: mapToHttpError's message is the original message exactly when
policy.shouldExpose is true and the fixed string "Internal server error"
otherwise; meta is none whenever shouldExpose is false, and meta can only
be present for a ValidationError whose exposure is permitted (where it
carries the validation fields). -/
theorem mapToHttpError_message_meta_antileak (e : BaseError) (p : ErrorPolicy) :
    (mapToHttpError e p).message =
      (if p.shouldExpose then e.message else "Internal server error")
    ∧ (p.shouldExpose = false → (mapToHttpError e p).meta = none)
    ∧ (∀ m, (mapToHttpError e p).meta = some m →
        p.shouldExpose = true
          ∧ ∃ fields msg, e = .validationError fields msg
              ∧ m = ApiErrorMeta.validation fields) := by
  refine ⟨rfl, ?_, ?_⟩
  · intro hp
    simp [mapToHttpError, hp]
  · intro m hm
    cases hp : p.shouldExpose with
    | false => simp [mapToHttpError, hp] at hm
    | true =>
        refine ⟨rfl, ?_⟩
        cases e <;> simp [mapToHttpError, hp] at hm
        exact ⟨_, _, rfl, hm.symm⟩

/-- C6: getErrorPolicy is total and pure by construction and implements the
ordered first-match rules: validation domain errors get
\x7breport:false, alert:false, expose:true, log:info\x7d; ApiResponseError is
decided by its proxy/integration mode rules even though its layer is
infrastructure (the mode rules come before the layer rules); every other
infrastructure-layer error gets \x7breport:true, alert: not retryable,
expose:false, log:error\x7d; and the application/unknown default is
\x7breport:true, alert:true, expose:false, log:error\x7d. -/
theorem getErrorPolicy_ordered_rules :
    (∀ fields msg, getErrorPolicy (.validationError fields msg) =
        ⟨false, false, true, .info⟩)
    ∧ (∀ status mode hint msg,
        (BaseError.apiResponseError status mode hint msg).layer =
          ErrorLayer.infrastructure
        ∧ getErrorPolicy (.apiResponseError status mode hint msg) =
            (if mode = ApiMode.proxy then
              ⟨false, false, true, if 500 ≤ status then .warn else .info⟩
            else ⟨true, decide (500 ≤ status), false, .error⟩))
    ∧ (∀ e : BaseError, e.layer = ErrorLayer.infrastructure →
        (∀ status mode hint msg, e ≠ .apiResponseError status mode hint msg) →
        getErrorPolicy e = ⟨true, !e.retryable, false, .error⟩)
    ∧ (∀ msg, getErrorPolicy (.unexpectedError msg) = ⟨true, true, false, .error⟩) := by
  refine ⟨fun fields msg => rfl, fun status mode hint msg => ⟨rfl, rfl⟩, ?_, fun msg => rfl⟩
  intro e hlayer hnotApi
  cases e with
  | validationError fields msg => simp [BaseError.layer] at hlayer
  | domainError c msg => simp [BaseError.layer] at hlayer
  | apiResponseError status mode hint msg => exact absurd rfl (hnotApi status mode hint msg)
  | unexpectedError msg => simp [BaseError.layer] at hlayer
  | _ => rfl

/-- C7: for a FetchError the status determination returns 429 exactly when
the upstream status was the rate-limit status 429 and 502 for every other
upstream status; the rate-limit carve-out precedes the generic
bad-gateway mapping, so a 429 is never mapped to 502. -/
theorem determineStatus_fetchError_rateLimit (status : Nat) (msg : String) :
    determineStatus (.fetchError status msg) =
      (if status = 429 then HttpStatus.TOO_MANY_REQUESTS else HttpStatus.BAD_GATEWAY)
    ∧ determineStatus (.fetchError 429 msg) = HttpStatus.TOO_MANY_REQUESTS
    ∧ (status ≠ 429 → determineStatus (.fetchError status msg) = HttpStatus.BAD_GATEWAY)
    ∧ determineStatus (.fetchError 429 msg) ≠ HttpStatus.BAD_GATEWAY := by
  refine ⟨rfl, rfl, ?_, ?_⟩
  · intro hne
    simp [determineStatus, HttpStatus.TOO_MANY_REQUESTS, hne]
  · simp [determineStatus, HttpStatus.TOO_MANY_REQUESTS, HttpStatus.BAD_GATEWAY]

/-- C8: classifyError is idempotent and identity-preserving: classifying an
already-classified value returns it unchanged, so
classify(classify(x)) = classify(x) for every input x. -/
theorem classifyError_idempotent (x : ErrValue) (e : BaseError) :
    classifyError (.typed (classifyError x)) = classifyError x
    ∧ classifyError (.typed e) = e :=
  ⟨rfl, rfl⟩

/-- C9: the timeout wrapper translates exactly the rejections that are
Errors named "AbortError" into a TimeoutError carrying the configured
duration; every other outcome — a success, a rejection with any other
name (in particular any of the library's typed errors, none of which is
named "AbortError"), or a non-Error rejection — passes through unchanged. -/
theorem withTimeout_abort_translation (t v : Nat) (n m : String) (e : BaseError) :
    withTimeoutResult t (Except.error (JsReason.errorObj "AbortError" m) : Except JsReason Nat) =
      Except.error (JsReason.baseErr (mkTimeoutError t))
    ∧ (n ≠ "AbortError" →
        withTimeoutResult t (Except.error (JsReason.errorObj n m) : Except JsReason Nat) =
          Except.error (JsReason.errorObj n m))
    ∧ withTimeoutResult t (Except.error (JsReason.baseErr e) : Except JsReason Nat) =
        Except.error (JsReason.baseErr e)
    ∧ withTimeoutResult t (Except.error (JsReason.nonErrorValue) : Except JsReason Nat) =
        Except.error JsReason.nonErrorValue
    ∧ withTimeoutResult t (Except.ok v : Except JsReason Nat) = Except.ok v := by
  refine ⟨by simp [withTimeoutResult, reasonName], ?_, ?_, by simp [withTimeoutResult, reasonName], rfl⟩
  · intro hn
    simp [withTimeoutResult, reasonName, hn]
  · simp [withTimeoutResult, reasonName, BaseError.className_ne_abortError e]

/-- C10: TimeoutError fixes retryable to true for every instance, so the
status determination maps every TimeoutError to 503 (service unavailable)
and the 504 (gateway timeout) branch for a non-retryable timeout can never
be taken. -/
theorem timeoutError_retryable_503 (t : Nat) (msg : String) :
    (BaseError.timeoutError t msg).retryable = true
    ∧ determineStatus (.timeoutError t msg) = HttpStatus.SERVICE_UNAVAILABLE
    ∧ determineStatus (.timeoutError t msg) ≠ HttpStatus.GATEWAY_TIMEOUT := by
  refine ⟨rfl, rfl, ?_⟩
  simp [determineStatus, BaseError.retryable, HttpStatus.SERVICE_UNAVAILABLE,
    HttpStatus.GATEWAY_TIMEOUT]

/-- C4 counterexample: a function that always raises a NetworkError,
wrapped by withRetry with maxAttempts 3, fixed backoff, delayMs 10 and the
default retry predicate, is invoked exactly once with no delay — not 3
times — because defaultShouldRetry retries only TimeoutError and 5xx
FetchError, and a NetworkError is neither. -/
theorem retry_networkError_default_counterexample :
    withRetryRun { maxAttempts := 3, delayMs := 10, backoff := .fixed }
        (fun e _ => defaultShouldRetry e)
        (fun _ => (Except.error (BaseError.networkError "fetch failed") : Except BaseError Unit))
        (fun _ => 0)
      = some ⟨Except.error (BaseError.networkError "fetch failed"), 1, []⟩
    ∧ (withRetryRun { maxAttempts := 3, delayMs := 10, backoff := .fixed }
        (fun e _ => defaultShouldRetry e)
        (fun _ => (Except.error (BaseError.networkError "fetch failed") : Except BaseError Unit))
        (fun _ => 0)).map RetryOutcome.invocations ≠ some 3 := by
  exact ⟨rfl, by decide⟩

/-- C4 amended: with the default retry predicate a network failure is not
retried — the wrapped function is invoked exactly once, no delay is slept,
and the original network failure is rethrown unchanged; the
three-invocations / at-least-20ms behavior holds instead for an
always-failing function whose failure the default predicate accepts, such
as a TimeoutError (each of the two slept delays is at least the 10ms
base, so they total at least 20ms, and the original error is rethrown). -/
theorem retry_default_predicate_behavior (msg : String) (t : Nat) (jitter : Nat → Nat) :
    withRetryRun { maxAttempts := 3, delayMs := 10, backoff := .fixed }
        (fun e _ => defaultShouldRetry e)
        (fun _ => (Except.error (BaseError.networkError msg) : Except BaseError Unit)) jitter
      = some ⟨Except.error (BaseError.networkError msg), 1, []⟩
    ∧ withRetryRun { maxAttempts := 3, delayMs := 10, backoff := .fixed }
        (fun e _ => defaultShouldRetry e)
        (fun _ => (Except.error (mkTimeoutError t) : Except BaseError Unit)) jitter
      = some ⟨Except.error (mkTimeoutError t), 3,
          [min (10 + jitter 1) 30000, min (10 + jitter 2) 30000]⟩
    ∧ 20 ≤ min (10 + jitter 1) 30000 + min (10 + jitter 2) 30000 := by
  refine ⟨rfl, rfl, ?_⟩
  omega

/-- C5 counterexample: with exponential backoff and delayMs 1000 (and zero
jitter draws, well under the cap), the delay withRetry waits before
attempt 2 is 1000 — calculateDelay is called with the just-failed attempt
number 1, giving base * 2^0 — so it does not lie in [2000, 2100]. -/
theorem retry_delay_before_attempt2_counterexample :
    (withRetryRun ({} : RetryOptions) (fun e _ => defaultShouldRetry e)
        (fun _ => (Except.error (mkTimeoutError 1000) : Except BaseError Unit))
        (fun _ => 0)).map RetryOutcome.delays = some [1000, 2000]
    ∧ ¬ (2000 ≤ 1000) := by
  exact ⟨rfl, by decide⟩

/-- C5 amended: with exponential backoff and delayMs 1000 (all other
options at their defaults, so maxJitterMs = 100 and the 30000 cap is not
reached), the delay withRetry computes and waits before attempt 2 lies in
[1000, 1000 + maxJitterMs] — it is base * 2^(1-1) plus the jitter draw —
and it is the delay before attempt 3 that lies in [2000, 2000 + maxJitterMs]. -/
theorem retry_exponential_delay_bounds (jitter : Nat → Nat)
    (hj1 : jitter 1 < 100) (hj2 : jitter 2 < 100) (t : Nat) :
    withRetryRun ({} : RetryOptions) (fun e _ => defaultShouldRetry e)
        (fun _ => (Except.error (mkTimeoutError t) : Except BaseError Unit)) jitter
      = some ⟨Except.error (mkTimeoutError t), 3,
          [min (1000 + jitter 1) 30000, min (2000 + jitter 2) 30000]⟩
    ∧ 1000 ≤ min (1000 + jitter 1) 30000
    ∧ min (1000 + jitter 1) 30000 ≤ 1000 + 100
    ∧ 2000 ≤ min (2000 + jitter 2) 30000
    ∧ min (2000 + jitter 2) 30000 ≤ 2000 + 100 := by
  refine ⟨rfl, ?_, ?_, ?_, ?_⟩ <;> omega

/-- Witness for the C5 amended theorem at the concrete jitter oracle that
always draws 0 and timeout duration 5000. -/
theorem retry_exponential_delay_bounds_witness :
    withRetryRun ({} : RetryOptions) (fun e _ => defaultShouldRetry e)
        (fun _ => (Except.error (mkTimeoutError 5000) : Except BaseError Unit))
        (fun _ => 0)
      = some ⟨Except.error (mkTimeoutError 5000), 3, [1000, 2000]⟩
    ∧ 1000 ≤ 1000 ∧ 1000 ≤ 1100 ∧ 2000 ≤ 2000 ∧ 2000 ≤ 2100 :=
  retry_exponential_delay_bounds (fun _ => 0) (by decide) (by decide) 5000

/-- Helper: the settle phase always reports the wrapped function as invoked
and passes the open-to-half-open write marker through unchanged. -/
theorem cbSettle_invoked_mid (cfg : CBConfig) (now : Nat) (succ : Bool)
    (c1 : CircuitData) (mid : Option CircuitData) :
    (cbSettle cfg now succ c1 mid).invoked = true
    ∧ (cbSettle cfg now succ c1 mid).halfOpenWrite = mid := by
  constructor <;> (unfold cbSettle; cases succ <;> (repeat' split) <;> rfl)

/-- Helper: a run of k consecutive failing calls, k below the failure
threshold, leaves the circuit closed with exactly k recorded failures. -/
theorem cbRun_replicate_fail_closed (name : String) (cfg : CBConfig) (t : Nat) :
    ∀ k, k < cfg.failureThreshold →
      ((cbRun name cfg (List.replicate k (t, false))).getD DEFAULT_CIRCUIT).state
          = CircuitState.closed
      ∧ ((cbRun name cfg (List.replicate k (t, false))).getD DEFAULT_CIRCUIT).failures = k := by
  intro k
  induction k with
  | zero => intro _; exact ⟨rfl, rfl⟩
  | succ n ih =>
      intro hk
      obtain ⟨hs, hf⟩ := ih (Nat.lt_of_succ_lt hk)
      have hle : ¬ (cfg.failureThreshold ≤ n + 1) := by omega
      simp only [List.replicate_succ, cbRun]
      simp [cbStep, cbSettle, hs, hf, hle]

/-- C2: (i) starting from a fresh circuit, failureThreshold consecutive
failing calls leave the stored state open; (ii) a call while
now < lastFailure + resetTimeout settles with the fast-fail CircuitOpenError
carrying the circuit name and the scheduled reset time, leaves storage
untouched and never invokes the wrapped function; (iii) a call at or after
that deadline writes the half-open transition (success counter zeroed)
before invoking the wrapped function — the transition is driven lazily by
the incoming call, there being no background timer in the model or the
source. -/
theorem circuitBreaker_threshold_fastFail_halfOpen
    (name : String) (cfg : CBConfig) (hft : 1 ≤ cfg.failureThreshold) (t : Nat)
    (c : CircuitData) (hopen : c.state = CircuitState.«open»)
    (now1 now2 : Nat) (h1 : now1 < c.lastFailure + cfg.resetTimeout)
    (h2 : c.lastFailure + cfg.resetTimeout ≤ now2) (r : Bool) :
    ((cbRun name cfg (List.replicate cfg.failureThreshold (t, false))).getD DEFAULT_CIRCUIT).state
        = CircuitState.«open»
    ∧ cbStep name cfg (some c) now1 r =
        ⟨some c, CBOutcome.rejectedOpen name (c.lastFailure + cfg.resetTimeout), false, none⟩
    ∧ (cbStep name cfg (some c) now2 r).invoked = true
    ∧ (cbStep name cfg (some c) now2 r).halfOpenWrite =
        some { c with state := CircuitState.halfOpen, successes := 0 } := by
  refine ⟨?_, ?_, ?_, ?_⟩
  · obtain ⟨m, hm⟩ : ∃ m, cfg.failureThreshold = m + 1 :=
      ⟨cfg.failureThreshold - 1, by omega⟩
    obtain ⟨hs, hf⟩ := cbRun_replicate_fail_closed name cfg t m (by omega)
    rw [hm]
    simp only [List.replicate_succ, cbRun]
    simp [cbStep, cbSettle, hs, hf, hm]
  · have hn : ¬ (c.lastFailure + cfg.resetTimeout ≤ now1) := by omega
    simp [cbStep, hopen, hn]
  · simp [cbStep, hopen, h2, cbSettle_invoked_mid]
  · simp [cbStep, hopen, h2, cbSettle_invoked_mid]

/-- Witness for C2 at the default configuration: five failures at time 7
open the circuit; with the open circuit last failed at 1000, a call at
1001 fast-fails with reset time 31000 without invoking the function, and a
call at 31000 writes the half-open transition and invokes it. -/
theorem circuitBreaker_threshold_fastFail_halfOpen_witness :
    ((cbRun "api" {} (List.replicate 5 (7, false))).getD DEFAULT_CIRCUIT).state
        = CircuitState.«open»
    ∧ cbStep "api" {} (some ⟨CircuitState.«open», 5, 0, 1000⟩) 1001 false =
        ⟨some ⟨CircuitState.«open», 5, 0, 1000⟩, CBOutcome.rejectedOpen "api" 31000, false, none⟩
    ∧ (cbStep "api" {} (some ⟨CircuitState.«open», 5, 0, 1000⟩) 31000 false).invoked = true
    ∧ (cbStep "api" {} (some ⟨CircuitState.«open», 5, 0, 1000⟩) 31000 false).halfOpenWrite =
        some ⟨CircuitState.halfOpen, 5, 0, 1000⟩ :=
  circuitBreaker_threshold_fastFail_halfOpen "api" {} (by decide) 7
    ⟨CircuitState.«open», 5, 0, 1000⟩ rfl 1001 31000 (by decide) (by decide) false

/-- Helper: the settle phase preserves the property that a non-closed
circuit carries at least failureThreshold failures, provided it is never
entered with an open circuit (cbStep enters it with a closed, half-open,
or freshly transitioned half-open circuit only). -/
theorem cbSettle_threshold (cfg : CBConfig) (now : Nat) (succ : Bool)
    (c1 : CircuitData) (mid : Option CircuitData)
    (hno : c1.state ≠ CircuitState.«open»)
    (hc : c1.state ≠ CircuitState.closed → cfg.failureThreshold ≤ c1.failures) :
    ((cbSettle cfg now succ c1 mid).stored.getD DEFAULT_CIRCUIT).state ≠ CircuitState.closed →
    cfg.failureThreshold ≤
      ((cbSettle cfg now succ c1 mid).stored.getD DEFAULT_CIRCUIT).failures := by
  intro hd
  unfold cbSettle at hd ⊢
  cases succ with
  | true =>
      by_cases hho : c1.state = CircuitState.halfOpen
      · by_cases hst : cfg.successThreshold ≤ c1.successes + 1
        · simp [hho, hst] at hd
        · simp [hho, hst] at hd ⊢
          exact hc (by rw [hho]; decide)
      · have hcl : c1.state = CircuitState.closed := by
          cases h : c1.state
          · rfl
          · exact absurd h hno
          · exact absurd h hho
        simp [hho, hcl] at hd
  | false =>
      by_cases hft : cfg.failureThreshold ≤ c1.failures + 1
      · simp [hft] at hd ⊢
      · simp [hft] at hd ⊢
        have := hc (by intro h; rw [h] at hd; simp at hd)
        omega

/-- Helper: one call through the breaker preserves the invariant that a
stored non-closed circuit carries at least failureThreshold failures. -/
theorem cbStep_threshold (name : String) (cfg : CBConfig) (stored : Option CircuitData)
    (now : Nat) (succ : Bool)
    (hprev : (stored.getD DEFAULT_CIRCUIT).state ≠ CircuitState.closed →
      cfg.failureThreshold ≤ (stored.getD DEFAULT_CIRCUIT).failures) :
    ((cbStep name cfg stored now succ).stored.getD DEFAULT_CIRCUIT).state ≠ CircuitState.closed →
    cfg.failureThreshold ≤
      ((cbStep name cfg stored now succ).stored.getD DEFAULT_CIRCUIT).failures := by
  unfold cbStep
  by_cases ho : (stored.getD DEFAULT_CIRCUIT).state = CircuitState.«open»
  · have hft : cfg.failureThreshold ≤ (stored.getD DEFAULT_CIRCUIT).failures :=
      hprev (by rw [ho]; decide)
    by_cases hr : (stored.getD DEFAULT_CIRCUIT).lastFailure + cfg.resetTimeout ≤ now
    · simp only [ho, if_pos, hr, if_true, reduceIte]
      exact cbSettle_threshold cfg now succ _ _ (by simp) (fun _ => hft)
    · simp only [ho, hr, reduceIte, if_true, if_false]
      intro _
      exact hft
  · simp only [ho, reduceIte, if_false]
    exact cbSettle_threshold cfg now succ _ none ho hprev

/-- Helper: in every state reachable from empty storage, a non-closed
circuit carries at least failureThreshold failures; in particular every
reachable half-open circuit is one failure away from (or already past) the
threshold, so a single failure while half-open always reopens it. -/
theorem cbRun_threshold_invariant (name : String) (cfg : CBConfig) :
    ∀ tr : List (Nat × Bool),
      ((cbRun name cfg tr).getD DEFAULT_CIRCUIT).state ≠ CircuitState.closed →
      cfg.failureThreshold ≤ ((cbRun name cfg tr).getD DEFAULT_CIRCUIT).failures := by
  intro tr
  induction tr with
  | nil => intro h; exact absurd rfl h
  | cons step rest ih => exact cbStep_threshold name cfg _ step.1 step.2 ih

/-- C3 counterexample: a single failing call on a half-open circuit (here
the reachable half-open state with 5 recorded failures and 1 recorded
success, at the default thresholds) reopens the circuit with the failure
counter incremented to 6 — not reset — and the success counter left at 1 —
not reset; only the failure timestamp is updated. -/
theorem halfOpen_failure_counter_not_reset_counterexample :
    (cbStep "api" {} (some ⟨CircuitState.halfOpen, 5, 1, 0⟩) 42 false).stored =
        some ⟨CircuitState.«open», 6, 1, 42⟩
    ∧ (cbStep "api" {} (some ⟨CircuitState.halfOpen, 5, 1, 0⟩) 42 false).stored ≠
        some ⟨CircuitState.«open», 0, 1, 42⟩
    ∧ (cbStep "api" {} (some ⟨CircuitState.halfOpen, 5, 1, 0⟩) 42 false).stored ≠
        some ⟨CircuitState.«open», 6, 0, 42⟩ := by
  exact ⟨rfl, by decide, by decide⟩

/-- C3 amended: while half-open, a successful call increments the success
counter and, on reaching successThreshold, closes the circuit with the
failure counter reset to 0; a failing call (whenever the failure counter is
within one of the threshold — as in every reachable half-open state, by the
third conjunct) immediately reopens the circuit with the failure recorded
by incrementing the counter (not resetting it) and the failure timestamp
updated, the success counter being reset only at the next
open-to-half-open transition. -/
theorem halfOpen_success_close_failure_reopen
    (name : String) (cfg : CBConfig) (c : CircuitData) (now : Nat)
    (hho : c.state = CircuitState.halfOpen)
    (hft : cfg.failureThreshold ≤ c.failures + 1) :
    (cbStep name cfg (some c) now true).stored =
        some (if cfg.successThreshold ≤ c.successes + 1
          then { c with state := CircuitState.closed, successes := c.successes + 1, failures := 0 }
          else { c with successes := c.successes + 1 })
    ∧ (cbStep name cfg (some c) now false).stored =
        some { c with state := CircuitState.«open», failures := c.failures + 1, lastFailure := now }
    ∧ (∀ tr : List (Nat × Bool),
        ((cbRun name cfg tr).getD DEFAULT_CIRCUIT).state = CircuitState.halfOpen →
        cfg.failureThreshold ≤ ((cbRun name cfg tr).getD DEFAULT_CIRCUIT).failures) := by
  refine ⟨?_, ?_, ?_⟩
  · by_cases hst : cfg.successThreshold ≤ c.successes + 1 <;>
      simp [cbStep, cbSettle, hho, hst]
  · simp [cbStep, cbSettle, hho, hft]
  · intro tr htr
    exact cbRun_threshold_invariant name cfg tr (by rw [htr]; decide)

/-- Witness for the C3 amended theorem at the default thresholds on the
half-open circuit with 5 failures and 1 success: the success closes the
circuit (threshold 2 reached) resetting failures, the failure reopens it
with 6 failures and timestamp 42. -/
theorem halfOpen_success_close_failure_reopen_witness :
    (cbStep "api" {} (some ⟨CircuitState.halfOpen, 5, 1, 0⟩) 42 true).stored =
        some ⟨CircuitState.closed, 0, 2, 0⟩
    ∧ (cbStep "api" {} (some ⟨CircuitState.halfOpen, 5, 1, 0⟩) 42 false).stored =
        some ⟨CircuitState.«open», 6, 1, 42⟩
    ∧ (∀ tr : List (Nat × Bool),
        ((cbRun "api" {} tr).getD DEFAULT_CIRCUIT).state = CircuitState.halfOpen →
        (5 : Nat) ≤ ((cbRun "api" {} tr).getD DEFAULT_CIRCUIT).failures) :=
  halfOpen_success_close_failure_reopen "api" {} ⟨CircuitState.halfOpen, 5, 1, 0⟩ 42
    rfl (by decide)
